import Mathlib

/-!
Verification of the real-time chat subsystem of the osdhack25 repository.

The embedding translates `server.py` (the FastAPI websocket `ConnectionManager`
and `websocket_endpoint`), `src/online_chat.py` (`OnlineChatClient`) and
`src/online_manager.py` (the thread/event-loop bridge) into executable Lean
definitions.  Python dictionaries become association lists with dict-style
insert semantics (update in place keeps the position of the key; new keys append),
`datetime.now()` becomes an explicit `now : Nat` parameter, and network sends
become entries in an event trace.  Transport failures are modelled by an
oracle `fails : String → Bool` saying whether sending to the connection of a
given user raises.  Each `async` method body runs atomically in this model
(the manager guards its maps with one `asyncio.Lock`, so interleaving inside a
method is not observable at the map level); cross-method interleaving, where a
claim depends on it, is modelled by an explicit scheduler (see `JoinSystem`).
-/

namespace Chat

/-- One wire message (`server.py` / `online_chat.py` build these as JSON
objects).  Every literal in the source has a `"type"` field; the remaining
fields are optional. -/
structure Envelope where
  type : String
  username : Option String := none
  message : Option String := none
  timestamp : Option Nat := none
  users : Option (List String) := none
  typing_users : Option (List String) := none
deriving Repr, DecidableEq

/-- Observable effects of running the server code. `delivered u e` is a
successful `send_text` of envelope `e` on the registered connection of user `u`;
`sendFailed u e` is such a send raising; `sentDirect ws e` is a send on a raw
websocket handle during the handshake; `closedWs` / `cancelledTask` model
`websocket.close()` and `task.cancel()`. -/
inductive Event where
  | delivered (recipient : String) (env : Envelope)
  | sendFailed (recipient : String) (env : Envelope)
  | sentDirect (ws : Nat) (env : Envelope)
  | closedWs (ws : Nat)
  | cancelledTask (username : String)
deriving Repr, DecidableEq

/-- Per-user record held in `ConnectionManager.users` (server.py lines 45-49):
`connected_at` and `last_pong` timestamps. -/
structure UserInfo where
  connected_at : Nat
  last_pong : Nat
deriving Repr, DecidableEq

/-- The `ConnectionManager` state (server.py lines 32-40): four dicts keyed by
username.  Websocket handles and asyncio tasks are identified by `Nat` ids. -/
structure ManagerState where
  active_connections : List (String × Nat)
  users : List (String × UserInfo)
  ping_tasks : List (String × Nat)
  typing_users : List (String × Nat)
deriving Repr, DecidableEq

/-- Constant `PING_INTERVAL` (server.py line 36). -/
def ping_interval : Nat := 15

/-- Constant `PING_TIMEOUT` (server.py line 37). -/
def ping_timeout : Nat := 5

/-! ### Association lists with Python-dict semantics -/

/-- Membership test `k in d` for a Python dict. -/
def memKey (k : String) (l : List (String × α)) : Bool :=
  l.any (fun p => p.1 == k)

/-- Lookup `d.get(k)` for a Python dict. -/
def lookupKey (k : String) (l : List (String × α)) : Option α :=
  (l.find? (fun p => p.1 == k)).map (fun p => p.2)

/-- Assignment `d[k] = v` for a Python dict: an existing key keeps its position, a new
key is appended. -/
def insertKey (k : String) (v : α) : List (String × α) → List (String × α)
  | [] => [(k, v)]
  | (k', v') :: rest =>
      if k' == k then (k, v) :: rest else (k', v') :: insertKey k v rest

/-- Deletion `del d[k]` for a Python dict (no-op when absent). -/
def eraseKey (k : String) (l : List (String × α)) : List (String × α) :=
  l.filter (fun p => p.1 != k)

/-- Usernames with a registered connection (keys of `active_connections`). -/
def activeNames (st : ManagerState) : List String :=
  st.active_connections.map (fun p => p.1)

/-- Method `ConnectionManager.get_user_list` (server.py lines 103-104). -/
def get_user_list (st : ManagerState) : List String :=
  st.users.map (fun p => p.1)

/-- Keys of the `typing_users` dict. -/
def typingKeys (st : ManagerState) : List String :=
  st.typing_users.map (fun p => p.1)

/-! ### Envelope builders, one per JSON literal in the source -/

/-- Client `join` (online_chat.py line 30). -/
def client_join_envelope (username : String) : Envelope :=
  { type := "join", username := some username }

/-- Client chat message (`OnlineChatClient.send_message`, online_chat.py
line 77): note the literal is `{"type": "chat", "message": message}` — no
timestamp and no username field. -/
def client_chat_envelope (message : String) : Envelope :=
  { type := "chat", message := some message }

/-- Client AI query (`OnlineChatClient.call_flowey`, online_chat.py line 81). -/
def client_flowey_envelope (message : String) : Envelope :=
  { type := "flowey", message := some message }

/-- Client `pong` reply (online_chat.py line 65). -/
def client_pong_envelope : Envelope := { type := "pong" }

/-- Client `leave` (online_chat.py line 85). -/
def client_leave_envelope : Envelope := { type := "leave" }

/-- Server keepalive probe (server.py line 113): `{"type": "ping"}`. -/
def server_ping_envelope : Envelope := { type := "ping" }

/-- Server `error` envelope (server.py line 204). -/
def server_error_envelope (message : String) : Envelope :=
  { type := "error", message := some message }

/-- Server welcome message (server.py line 206). -/
def server_welcome_envelope (username : String) (now : Nat) : Envelope :=
  { type := "chat", username := some "System",
    message := some ("Welcome, " ++ username ++ "!"), timestamp := some now }

/-- Server roster snapshot sent once at join (server.py line 207). -/
def server_user_list_envelope (users : List String) : Envelope :=
  { type := "user_list", users := some users }

/-- Presence event built by `broadcast_user_event` (server.py line 78). -/
def server_user_event_envelope (event_type username : String) (now : Nat)
    (users : List String) : Envelope :=
  { type := event_type, username := some username, timestamp := some now,
    users := some users }

/-- Typing-status envelope built by `broadcast_typing_status`
(server.py line 84). -/
def server_typing_status_envelope (typing : List String) (now : Nat) : Envelope :=
  { type := "typing_status", typing_users := some typing, timestamp := some now }

/-- The synthetic Flowey chat message (server.py line 217). -/
def server_flowey_chat_envelope (response : String) (now : Nat) : Envelope :=
  { type := "chat", username := some "Flowey", message := some response,
    timestamp := some now }

/-! ### ConnectionManager operations -/

/-- Method `ConnectionManager.disconnect` (server.py lines 53-58): delete the
username from all four dicts and cancel its ping task when present. -/
def disconnect (username : String) (st : ManagerState) :
    ManagerState × List Event :=
  (⟨eraseKey username st.active_connections,
    eraseKey username st.users,
    eraseKey username st.ping_tasks,
    eraseKey username st.typing_users⟩,
   if memKey username st.ping_tasks then [Event.cancelledTask username] else [])

/-- The `for username, connection in connections_to_broadcast:` loop of
`ConnectionManager.broadcast` (server.py lines 71-75), parameterised by the
removal routine `rem` invoked from the `except` handler.  Returns the final
state, the event trace, and the list of recipients whose send succeeded (in
delivery order). -/
def sendLoop (rem : String → ManagerState → ManagerState × List Event)
    (fails : String → Bool) (env : Envelope) (exclude : Option String) :
    List (String × Nat) → ManagerState → ManagerState × List Event × List String
  | [], st => (st, [], [])
  | (u, _) :: rest, st =>
      if some u = exclude then sendLoop rem fails env exclude rest st
      else if fails u then
        let r1 := rem u st
        let r2 := sendLoop rem fails env exclude rest r1.1
        (r2.1, Event.sendFailed u env :: (r1.2 ++ r2.2.1), r2.2.2)
      else
        let r2 := sendLoop rem fails env exclude rest st
        (r2.1, Event.delivered u env :: r2.2.1, u :: r2.2.2)

/-- Body of `ConnectionManager.remove_connection` (server.py lines 98-101):
`disconnect`, then `broadcast_user_event("user_left", …)`, then
`broadcast_typing_status()`, with `rem` standing for the recursive
`remove_connection` reference used inside the nested broadcasts. -/
def remove_connection_body
    (rem : String → ManagerState → ManagerState × List Event)
    (fails : String → Bool) (now : Nat) (username : String)
    (st : ManagerState) : ManagerState × List Event :=
  let r1 := disconnect username st
  let uleft := server_user_event_envelope "user_left" username now
    (get_user_list r1.1)
  let r2 := sendLoop rem fails uleft none r1.1.active_connections r1.1
  let ts := server_typing_status_envelope (typingKeys r2.1) now
  let r3 := sendLoop rem fails ts none r2.1.active_connections r2.1
  (r3.1, r1.2 ++ r2.2.1 ++ r3.2.1)

/-- Method `ConnectionManager.remove_connection` (server.py lines 98-101).
The nested broadcasts call `remove_connection` again from their `except`
handlers; `fuel` bounds that nesting depth (it is consumed only on re-entry,
so any fuel above the actual nesting depth gives the source behaviour).
Written with `Nat.rec` so that concrete runs reduce definitionally. -/
def remove_connectionF (fails : String → Bool) (now : Nat) (fuel : Nat) :
    String → ManagerState → ManagerState × List Event :=
  Nat.rec (motive := fun _ => String → ManagerState → ManagerState × List Event)
    (fun _ st => (st, []))
    (fun _ rem => remove_connection_body rem fails now)
    fuel


/-- Method `ConnectionManager.broadcast` (server.py lines 68-75): snapshot the
connections dict under the lock, then send to each entry other than
`exclude`, removing a recipient whose send raises. -/
def broadcast (fuel : Nat) (fails : String → Bool) (now : Nat) (env : Envelope)
    (exclude : Option String) (st : ManagerState) :
    ManagerState × List Event × List String :=
  sendLoop (remove_connectionF fails now fuel) fails env exclude
    st.active_connections st

/-- Method `ConnectionManager.broadcast_user_event` (server.py lines 77-79). -/
def broadcast_user_event (fuel : Nat) (fails : String → Bool) (now : Nat)
    (event_type username : String) (st : ManagerState) :
    ManagerState × List Event :=
  let r := broadcast fuel fails now
    (server_user_event_envelope event_type username now (get_user_list st))
    none st
  (r.1, r.2.1)

/-- Method `ConnectionManager.broadcast_typing_status` (server.py lines 81-85). -/
def broadcast_typing_status (fuel : Nat) (fails : String → Bool) (now : Nat)
    (st : ManagerState) : ManagerState × List Event :=
  let r := broadcast fuel fails now
    (server_typing_status_envelope (typingKeys st) now) none st
  (r.1, r.2.1)

/-- Method `ConnectionManager.remove_connection` entry point (server.py
lines 98-101), with `fuel` bounding nested failure-triggered recursion. -/
def remove_connection (fuel : Nat) (fails : String → Bool) (now : Nat)
    (username : String) (st : ManagerState) : ManagerState × List Event :=
  remove_connectionF fails now (fuel + 1) username st

/-- The dict mutation performed by `ConnectionManager.update_typing_status`
under the lock (server.py lines 89-95), together with the `changed` flag the
source computes. -/
def mutateTyping (username : String) (is_typing : Bool) (now : Nat)
    (st : ManagerState) : ManagerState × Bool :=
  if is_typing then
    ({ st with typing_users := insertKey username now st.typing_users },
     !memKey username st.typing_users)
  else if memKey username st.typing_users then
    ({ st with typing_users := eraseKey username st.typing_users }, true)
  else (st, false)

/-- Method `ConnectionManager.update_typing_status` (server.py lines 87-96): mutate
the typing dict, and broadcast the typing status only when `changed`.  The
middle component records whether the broadcast at line 96 ran. -/
def update_typing_status (fuel : Nat) (fails : String → Bool) (now : Nat)
    (username : String) (is_typing : Bool) (st : ManagerState) :
    ManagerState × Bool × List Event :=
  let m := mutateTyping username is_typing now st
  if m.2 then
    let r := broadcast_typing_status fuel fails now m.1
    (r.1, true, r.2)
  else (m.1, false, [])

/-- Method `ConnectionManager.connect` (server.py lines 42-51): insert the
connection and the user record, start the ping task, and broadcast
`user_joined`. -/
def connect (fuel : Nat) (fails : String → Bool) (now : Nat) (ws taskId : Nat)
    (username : String) (st : ManagerState) : ManagerState × List Event :=
  let st1 : ManagerState :=
    { st with active_connections := insertKey username ws st.active_connections,
              users := insertKey username ⟨now, now⟩ st.users }
  let st2 : ManagerState :=
    { st1 with ping_tasks := insertKey username taskId st1.ping_tasks }
  broadcast_user_event fuel fails now "user_joined" username st2

/-! ### The websocket endpoint (server.py lines 193-226) -/

/-- Outcome of the handshake phase of `websocket_endpoint`. -/
inductive HandshakeOutcome where
  | rejectedDuplicate (username : String)
  | notJoinClosed
  | accepted (username : String)
deriving Repr, DecidableEq

/-- The handshake phase of `websocket_endpoint` (server.py lines 196-208) for
a first envelope `msg` arriving on raw websocket `ws`.  When the type is
`join`, the username defaults to `"User_<len(users)+1>"` (line 201).  On a
duplicate it sends an `error`, closes — and then the early `return` still
runs the `finally` clause at line 226, which calls
`remove_connection(username)` with the duplicate name: that effect is part of
this definition.  On a non-`join` first message it closes (`username` is
still `None`, so the `finally` clause does nothing). -/
def websocket_endpoint_handshake (fuel : Nat) (fails : String → Bool)
    (now : Nat) (ws taskId : Nat) (msg : Envelope) (st : ManagerState) :
    HandshakeOutcome × ManagerState × List Event :=
  if msg.type = "join" then
    let username := msg.username.getD ("User_" ++ toString (st.users.length + 1))
    if memKey username st.active_connections then
      let r := remove_connection fuel fails now username st
      (HandshakeOutcome.rejectedDuplicate username, r.1,
       Event.sentDirect ws (server_error_envelope "Username taken.")
         :: Event.closedWs ws :: r.2)
    else
      let r := connect fuel fails now ws taskId username st
      (HandshakeOutcome.accepted username, r.1,
       r.2 ++ [Event.sentDirect ws (server_welcome_envelope username now),
               Event.sentDirect ws (server_user_list_envelope (get_user_list r.1))])
  else (HandshakeOutcome.notJoinClosed, st, [Event.closedWs ws])

/-- Behaviour of the external answer collaborator for one `flowey` query:
the module-level model is absent (`flowey_model is None`), the Gemini call
raises, or it returns text. -/
inductive FloweyResult where
  | noModel
  | raised
  | ok (text : String)
deriving Repr, DecidableEq

/-- Function `get_flowey_response` (server.py lines 155-162): fallback string when the
model is unavailable, a second fallback when the call raises, otherwise the
returned text verbatim.  No exception escapes to the caller. -/
def get_flowey_response (result : FloweyResult) : String :=
  match result with
  | FloweyResult.noModel => "Howdy! My AI brain isn\x27t working right now."
  | FloweyResult.raised => "*wilts slightly* I\x27m having trouble thinking..."
  | FloweyResult.ok t => t

/-- One iteration of the `while True` dispatch loop of `websocket_endpoint`
(server.py lines 210-223) for a parsed envelope `msg` from registered user
`username`.  `floweyResult` is the behaviour of the external collaborator if this
message is a `flowey` query.  The boolean is `false` exactly when the loop
`break`s (a `leave` message). -/
def dispatch_message (fuel : Nat) (fails : String → Bool) (now : Nat)
    (username : String) (msg : Envelope) (floweyResult : FloweyResult)
    (st : ManagerState) : ManagerState × List Event × Bool :=
  if msg.type = "chat" then
    let r1 := broadcast fuel fails now msg (some username) st
    let r2 := update_typing_status fuel fails now username false r1.1
    (r2.1, r1.2.1 ++ r2.2.2, true)
  else if msg.type = "flowey" then
    let env := server_flowey_chat_envelope (get_flowey_response floweyResult) now
    let r1 := broadcast fuel fails now env none st
    let r2 := update_typing_status fuel fails now username false r1.1
    (r2.1, r1.2.1 ++ r2.2.2, true)
  else if msg.type = "typing" then
    let r := update_typing_status fuel fails now username true st
    (r.1, r.2.2, true)
  else if msg.type = "pong" then
    (if memKey username st.users then
      { st with users :=
          (st.users.map (fun p =>
            if p.1 == username then (p.1, { p.2 with last_pong := now }) else p)) }
     else st, [], true)
  else if msg.type = "leave" then (st, [], false)
  else (st, [], true)

/-- The `finally` clause of `websocket_endpoint` (server.py lines 225-226),
reached on any exit of the read loop (graceful `leave`, disconnect, timeout
or JSON error) once a username was bound: it calls
`remove_connection(username)` unconditionally. -/
def websocket_endpoint_finally (fuel : Nat) (fails : String → Bool) (now : Nat)
    (username : String) (st : ManagerState) : ManagerState × List Event :=
  remove_connection fuel fails now username st

/-- Result of one `periodic_ping` cycle. -/
inductive PingCycleResult where
  | looped
  | exited
deriving Repr, DecidableEq

/-- One iteration of `ConnectionManager.periodic_ping` (server.py
lines 106-119), taken after the `PING_INTERVAL` sleep.  `pingSendFails` says
whether `connection.send_text` of the ping raises; `nowAfterTimeout` is the
clock value at the staleness check after the `PING_TIMEOUT` sleep.  The
iteration exits when the user is gone, when the ping send raises (eviction),
or when `last_pong` is more than `PING_TIMEOUT` old (eviction); otherwise it
loops. -/
def periodic_ping_cycle (fuel : Nat) (fails : String → Bool)
    (pingSendFails : Bool) (nowAfterTimeout : Nat) (username : String)
    (st : ManagerState) : PingCycleResult × ManagerState × List Event :=
  match lookupKey username st.users, lookupKey username st.active_connections with
  | some _, some _ =>
      if pingSendFails then
        let r := remove_connection fuel fails nowAfterTimeout username st
        (PingCycleResult.exited, r.1, r.2)
      else
        let pingEv := Event.delivered username server_ping_envelope
        match lookupKey username st.users with
        | some info =>
            if nowAfterTimeout - info.last_pong > ping_timeout then
              let r := remove_connection fuel fails nowAfterTimeout username st
              (PingCycleResult.exited, r.1, pingEv :: r.2)
            else (PingCycleResult.looped, st, [pingEv])
        | none => (PingCycleResult.looped, st, [pingEv])
  | _, _ => (PingCycleResult.exited, st, [])

/-! ### Interleaving model of the join handshake (claim C3)

Lines 202-204 of server.py check `username in manager.active_connections`
inside one `async with manager.lock:` block, release the lock, and only then
call `manager.connect` (line 205), which re-acquires the lock to insert.  Two
handshake tasks for the same name can therefore interleave between the check
and the insert (e.g. when the registry lock is contended, the waiters
alternate).  Each `JoinPc` value is one critical section of one task. -/

inductive JoinPc where
  | checking
  | inserting
  | done (accepted : Bool)
deriving Repr, DecidableEq

/-- Run one critical section of a join task for `name` against the set of
registered names: `checking` is the duplicate test of lines 202-204,
`inserting` is the dict insert inside `connect` (line 44). -/
def joinStep (name : String) (pc : JoinPc) (registry : List String) :
    JoinPc × List String :=
  match pc with
  | JoinPc.checking =>
      if registry.contains name then (JoinPc.done false, registry)
      else (JoinPc.inserting, registry)
  | JoinPc.inserting =>
      (JoinPc.done true,
       if registry.contains name then registry else registry ++ [name])
  | JoinPc.done b => (JoinPc.done b, registry)

/-- Two concurrent join handshakes plus the registry key set. -/
structure JoinSystem where
  registry : List String
  name1 : String
  pc1 : JoinPc
  name2 : String
  pc2 : JoinPc
deriving Repr, DecidableEq

/-- Run a schedule (`false` = step task 1, `true` = step task 2). -/
def runJoinSchedule : List Bool → JoinSystem → JoinSystem
  | [], s => s
  | b :: rest, s =>
      if b then
        let r := joinStep s.name2 s.pc2 s.registry
        runJoinSchedule rest { s with pc2 := r.1, registry := r.2 }
      else
        let r := joinStep s.name1 s.pc1 s.registry
        runJoinSchedule rest { s with pc1 := r.1, registry := r.2 }

/-! ### Client and bridge (src/online_chat.py, src/online_manager.py) -/

/-- The fields of `OnlineChatClient` that `is_connected` reads
(online_chat.py lines 13-14, 21). -/
structure ChatClientState where
  connected : Bool
  websocket : Option Nat
deriving Repr, DecidableEq

/-- Method `OnlineChatClient.is_connected` (online_chat.py line 21). -/
def is_connected (c : ChatClientState) : Bool :=
  c.connected && c.websocket.isSome

/-- The module-level bridge state of src/online_manager.py (`_chat_loop`,
`_chat_client`) plus the queue of coroutines handed to the event
loop by `run_coroutine_threadsafe`. -/
structure BridgeState where
  chat_loop : Option Nat
  chat_client : Option ChatClientState
  scheduled : List Nat
deriving Repr, DecidableEq

/-- Whether a chat session is active as seen by the bridge: the
exact condition of online_manager.py line 111. -/
def sessionActive (st : BridgeState) : Bool :=
  st.chat_loop.isSome &&
    (match st.chat_client with
     | some c => is_connected c
     | none => false)

/-- Result of `submit_coroutine`: either the `concurrent.futures.Future`
returned by `run_coroutine_threadsafe`, or the `None` returned after the
"Not connected" message. -/
inductive SubmitResult where
  | submitted (future : Nat)
  | notConnected
deriving Repr, DecidableEq

/-- Function `submit_coroutine` (online_manager.py lines 109-115): when the loop
exists and the client is connected, hand the coroutine to the
scheduler and return a future; otherwise print the not-connected error and
return `None` without queuing anything. -/
def submit_coroutine (coro : Nat) (st : BridgeState) :
    SubmitResult × BridgeState :=
  if sessionActive st then
    (SubmitResult.submitted coro, { st with scheduled := st.scheduled ++ [coro] })
  else (SubmitResult.notConnected, st)

/-! ### Concrete states used by the closed theorems -/

/-- Transport oracle under which every send succeeds (healthy recipients). -/
def allSendsSucceed : String → Bool := fun _ => false

/-- Registry with two registered users, `alice` (websocket 1, ping task 10)
and `bob` (websocket 2, ping task 20), both connected at time 0 with
`last_pong = 0` and nobody typing. -/
def aliceBobState : ManagerState :=
  { active_connections := [("alice", 1), ("bob", 2)],
    users := [("alice", ⟨0, 0⟩), ("bob", ⟨0, 0⟩)],
    ping_tasks := [("alice", 10), ("bob", 20)],
    typing_users := [] }

/-- Same registry, but `alice` is currently marked typing (since time 3). -/
def aliceTypingState : ManagerState :=
  { aliceBobState with typing_users := [("alice", 3)] }

/-- Test whether an event is a successful delivery to recipient `u` of an
envelope whose type is `chat`. -/
def isChatDeliveryTo (u : String) : Event → Bool
  | Event.delivered v e => v == u && e.type == "chat"
  | _ => false

/-- Initial state of the C3 race: an empty registry and two concurrent
handshake tasks both joining as `Alice`, each about to run the duplicate
check of server.py lines 202-204. -/
def joinRaceStart : JoinSystem :=
  { registry := [], name1 := "Alice", pc1 := JoinPc.checking,
    name2 := "Alice", pc2 := JoinPc.checking }

/-- Registry in which the single registered user is literally named
`User_2`: the name the server would generate for the next anonymous join
(`len(users) = 1`, so the default is `User_<1+1>`). -/
def userTwoState : ManagerState :=
  { active_connections := [("User_2", 1)],
    users := [("User_2", ⟨0, 0⟩)],
    ping_tasks := [("User_2", 10)],
    typing_users := [] }

/-- Bridge state with no worker loop and no client. -/
def idleBridgeState : BridgeState :=
  { chat_loop := none, chat_client := none, scheduled := [] }

/-- Bridge state with a running loop and a connected client. -/
def connectedBridgeState : BridgeState :=
  { chat_loop := some 1,
    chat_client := some { connected := true, websocket := some 2 },
    scheduled := [] }

/-! ### Lemmas about the dictionary primitives -/

theorem memKey_iff_mem {α : Type} (k : String) (l : List (String × α)) :
    memKey k l = true ↔ k ∈ l.map Prod.fst := by
  simp [memKey, List.any_eq_true, List.mem_map, beq_iff_eq]

theorem keys_insertKey_of_memKey {α : Type} (k : String) (v : α)
    (l : List (String × α)) (h : memKey k l = true) :
    (insertKey k v l).map Prod.fst = l.map Prod.fst := by
  induction l with
  | nil => simp [memKey] at h
  | cons hd tl ih =>
      obtain ⟨k1, v1⟩ := hd
      by_cases hk : k1 = k
      · subst hk; simp [insertKey]
      · have h2 : memKey k tl = true := by
          simpa [memKey, hk] using h
        simp [insertKey, hk, ih h2]

theorem keys_insertKey_of_not_memKey {α : Type} (k : String) (v : α)
    (l : List (String × α)) (h : memKey k l = false) :
    (insertKey k v l).map Prod.fst = l.map Prod.fst ++ [k] := by
  induction l with
  | nil => simp [insertKey]
  | cons hd tl ih =>
      obtain ⟨k1, v1⟩ := hd
      have hk : k1 ≠ k := by
        intro hEq; subst hEq; simp [memKey] at h
      have h2 : memKey k tl = false := by
        simpa [memKey, hk] using h
      simp [insertKey, hk, ih h2]

theorem memKey_insertKey_self {α : Type} (k : String) (v : α)
    (l : List (String × α)) : memKey k (insertKey k v l) = true := by
  induction l with
  | nil => simp [insertKey, memKey]
  | cons hd tl ih =>
      obtain ⟨k1, v1⟩ := hd
      by_cases hk : k1 = k
      · subst hk; simp [insertKey, memKey]
      · simpa [insertKey, hk, memKey] using ih

theorem eraseKey_of_not_memKey {α : Type} (k : String) (l : List (String × α))
    (h : memKey k l = false) : eraseKey k l = l := by
  rw [eraseKey, List.filter_eq_self]
  intro p hp
  simp only [memKey, List.any_eq_false] at h
  have := h p hp
  simpa [bne_iff_ne, beq_iff_eq] using this

theorem not_mem_keys_eraseKey {α : Type} (k : String) (l : List (String × α)) :
    k ∉ (eraseKey k l).map Prod.fst := by
  simp only [eraseKey, List.mem_map, List.mem_filter]
  rintro ⟨p, ⟨_, hne⟩, rfl⟩
  simp [bne_iff_ne] at hne

theorem keys_eraseKey_subset {α : Type} (k : String) (l : List (String × α)) :
    (eraseKey k l).map Prod.fst ⊆ l.map Prod.fst :=
  List.map_subset _ (List.filter_subset' _)

theorem mem_keys_of_memKey {α : Type} {k : String} {l : List (String × α)}
    (h : memKey k l = true) : k ∈ l.map Prod.fst :=
  (memKey_iff_mem k l).mp h

/-! ### Lemmas about the broadcast loop -/

theorem remove_connectionF_zero (fails : String → Bool) (now : Nat)
    (username : String) (st : ManagerState) :
    remove_connectionF fails now 0 username st = (st, []) := rfl

theorem remove_connectionF_succ (fails : String → Bool) (now fuel : Nat)
    (username : String) (st : ManagerState) :
    remove_connectionF fails now (fuel + 1) username st =
      remove_connection_body (remove_connectionF fails now fuel) fails now
        username st := rfl

theorem sendLoop_noFail (rem : String → ManagerState → ManagerState × List Event)
    (env : Envelope) (exclude : Option String) :
    ∀ (l : List (String × Nat)) (st : ManagerState),
      sendLoop rem (fun _ => false) env exclude l st =
        (st,
         (l.filter (fun p => !(some p.1 == exclude))).map
           (fun p => Event.delivered p.1 env),
         (l.filter (fun p => !(some p.1 == exclude))).map (fun p => p.1)) := by
  intro l
  induction l with
  | nil => intro st; simp [sendLoop]
  | cons hd tl ih =>
      intro st
      obtain ⟨u, w⟩ := hd
      by_cases h : some u = exclude
      · simp [sendLoop, h, ih st]
      · simp [sendLoop, h, ih st]

theorem sendLoop_delivered (rem : String → ManagerState → ManagerState × List Event)
    (fails : String → Bool) (env : Envelope) (exclude : Option String) :
    ∀ (l : List (String × Nat)) (st : ManagerState),
      (sendLoop rem fails env exclude l st).2.2 =
        (l.map Prod.fst).filter (fun u => !(some u == exclude) && !fails u) := by
  intro l
  induction l with
  | nil => intro st; simp [sendLoop]
  | cons hd tl ih =>
      intro st
      obtain ⟨u, w⟩ := hd
      by_cases h : some u = exclude
      · simp [sendLoop, h, ih]
      · by_cases hf : fails u
        · simp [sendLoop, h, hf, ih]
        · simp [sendLoop, h, hf, ih]

theorem sendLoop_active_subset
    (rem : String → ManagerState → ManagerState × List Event)
    (fails : String → Bool) (env : Envelope) (exclude : Option String)
    (hrem : ∀ u s, activeNames (rem u s).1 ⊆ activeNames s) :
    ∀ (l : List (String × Nat)) (st : ManagerState),
      activeNames (sendLoop rem fails env exclude l st).1 ⊆ activeNames st := by
  intro l
  induction l with
  | nil => intro st; simp [sendLoop]
  | cons hd tl ih =>
      intro st
      obtain ⟨u, w⟩ := hd
      by_cases h : some u = exclude
      · simpa [sendLoop, h] using ih st
      · by_cases hf : fails u
        · simp only [sendLoop, if_neg h, hf, if_pos rfl]
          intro x hx
          exact hrem u st (ih (rem u st).1 hx)
        · simpa [sendLoop, h, hf] using ih st

theorem remove_connection_body_active_subset
    (rem : String → ManagerState → ManagerState × List Event)
    (fails : String → Bool) (now : Nat)
    (hrem : ∀ u s, activeNames (rem u s).1 ⊆ activeNames s)
    (username : String) (st : ManagerState) :
    activeNames (remove_connection_body rem fails now username st).1 ⊆
      activeNames st := by
  intro x hx
  simp only [remove_connection_body] at hx
  have h3 := sendLoop_active_subset rem fails _ none hrem _ _ hx
  have h2 := sendLoop_active_subset rem fails _ none hrem _ _ h3
  exact keys_eraseKey_subset username st.active_connections h2

theorem removeF_active_subset (fails : String → Bool) (now : Nat) :
    ∀ (fuel : Nat) (u : String) (st : ManagerState),
      activeNames (remove_connectionF fails now fuel u st).1 ⊆ activeNames st := by
  intro fuel
  induction fuel with
  | zero => intro u st; rw [remove_connectionF_zero]; exact fun x hx => hx
  | succ n ih =>
      intro u st
      rw [remove_connectionF_succ]
      exact remove_connection_body_active_subset _ fails now ih u st

theorem removeF_not_active_self (fails : String → Bool) (now : Nat) (n : Nat)
    (u : String) (st : ManagerState) :
    u ∉ activeNames (remove_connectionF fails now (n + 1) u st).1 := by
  rw [remove_connectionF_succ]
  intro hx
  simp only [remove_connection_body] at hx
  have h3 := sendLoop_active_subset _ fails _ none
    (removeF_active_subset fails now n) _ _ hx
  have h2 := sendLoop_active_subset _ fails _ none
    (removeF_active_subset fails now n) _ _ h3
  exact not_mem_keys_eraseKey u st.active_connections h2

theorem sendLoop_removes_failing (fails : String → Bool) (now : Nat)
    (env : Envelope) (exclude : Option String) (n : Nat) :
    ∀ (l : List (String × Nat)) (st : ManagerState) (u : String),
      u ∈ l.map Prod.fst → some u ≠ exclude → fails u = true →
      u ∉ activeNames
        (sendLoop (remove_connectionF fails now (n + 1)) fails env exclude l st).1 := by
  intro l
  induction l with
  | nil => intro st u hu; simp at hu
  | cons hd tl ih =>
      intro st u hu hne hf
      obtain ⟨v, w⟩ := hd
      simp only [List.map_cons, List.mem_cons] at hu
      by_cases hex : some v = exclude
      · have huv : u ≠ v := by rintro rfl; exact hne hex
        have hu2 : u ∈ tl.map Prod.fst := by
          rcases hu with h | h
          · exact absurd h huv
          · exact h
        simp only [sendLoop, if_pos hex]
        exact ih st u hu2 hne hf
      · by_cases huv : u = v
        · subst huv
          simp only [sendLoop, if_neg hex, hf, if_pos rfl]
          intro hx
          have h2 := sendLoop_active_subset _ fails env exclude
            (removeF_active_subset fails now (n + 1)) tl _ hx
          exact removeF_not_active_self fails now n u st h2
        · have hu2 : u ∈ tl.map Prod.fst := by
            rcases hu with h | h
            · exact absurd h huv
            · exact h
          by_cases hfv : fails v
          · simp only [sendLoop, if_neg hex, hfv, if_pos rfl]
            exact ih _ u hu2 hne hf
          · simp only [sendLoop, if_neg hex, hfv]
            simp only [Bool.false_eq_true, if_neg]
            exact ih st u hu2 hne hf

theorem some_beq_none_eq_false {α : Type} [BEq α] (a : α) :
    (some a == (none : Option α)) = false := rfl

theorem some_beq_some {α : Type} [BEq α] (a b : α) :
    (some a == some b) = (a == b) := rfl

theorem memKey_eraseKey_self {α : Type} (k : String) (l : List (String × α)) :
    memKey k (eraseKey k l) = false := by
  cases hb : memKey k (eraseKey k l) with
  | false => rfl
  | true => exact absurd (mem_keys_of_memKey hb) (not_mem_keys_eraseKey k l)

theorem broadcast_noFail (fuel now : Nat) (env : Envelope)
    (exclude : Option String) (st : ManagerState) :
    broadcast fuel (fun _ => false) now env exclude st =
      (st,
       (st.active_connections.filter (fun p => !(some p.1 == exclude))).map
         (fun p => Event.delivered p.1 env),
       (st.active_connections.filter (fun p => !(some p.1 == exclude))).map
         (fun p => p.1)) :=
  sendLoop_noFail _ env exclude st.active_connections st

theorem broadcast_noFail_none (fuel now : Nat) (env : Envelope)
    (st : ManagerState) :
    broadcast fuel (fun _ => false) now env none st =
      (st, st.active_connections.map (fun p => Event.delivered p.1 env),
       activeNames st) := by
  rw [broadcast_noFail]
  simp [activeNames, some_beq_none_eq_false]

theorem update_typing_status_noFail (fuel now : Nat) (u : String) (b : Bool)
    (st : ManagerState) :
    update_typing_status fuel (fun _ => false) now u b st =
      ((mutateTyping u b now st).1, (mutateTyping u b now st).2,
       if (mutateTyping u b now st).2 then
         (mutateTyping u b now st).1.active_connections.map
           (fun p => Event.delivered p.1
             (server_typing_status_envelope
               (typingKeys (mutateTyping u b now st).1) now))
       else []) := by
  unfold update_typing_status broadcast_typing_status
  by_cases h : (mutateTyping u b now st).2
  · simp [h, broadcast_noFail_none]
  · simp [h]

/-! ### Claim theorems -/

/-- C1: the claim says a `join` carrying an already-registered identity makes
the server send an `error` envelope and close only that connection attempt,
leaving the existing registration, its liveness-monitor task and the presence
state untouched.  The code violates this: the early `return` at server.py
line 204 still executes the `finally` clause at line 226, which calls
`manager.remove_connection(username)` with the duplicate name.  Evaluating
the embedded handshake on a registry holding `alice` and `bob` while a new
websocket (id 99) joins as `alice`: the new socket does get the error and the
close, but the **existing** `alice` is deregistered from
`active_connections` and `users`, her ping task is cancelled, and a
`user_left` presence event for `alice` is delivered to `bob`. -/
theorem C1_duplicate_join_evicts_existing_registration :
    (websocket_endpoint_handshake 3 allSendsSucceed 100 99 30
        (client_join_envelope "alice") aliceBobState).1 =
      HandshakeOutcome.rejectedDuplicate "alice"
  ∧ Event.sentDirect 99 (server_error_envelope "Username taken.") ∈
      (websocket_endpoint_handshake 3 allSendsSucceed 100 99 30
        (client_join_envelope "alice") aliceBobState).2.2
  ∧ memKey "alice" (websocket_endpoint_handshake 3 allSendsSucceed 100 99 30
        (client_join_envelope "alice") aliceBobState).2.1.active_connections = false
  ∧ memKey "alice" (websocket_endpoint_handshake 3 allSendsSucceed 100 99 30
        (client_join_envelope "alice") aliceBobState).2.1.users = false
  ∧ Event.cancelledTask "alice" ∈
      (websocket_endpoint_handshake 3 allSendsSucceed 100 99 30
        (client_join_envelope "alice") aliceBobState).2.2
  ∧ Event.delivered "bob"
        (server_user_event_envelope "user_left" "alice" 100 ["bob"]) ∈
      (websocket_endpoint_handshake 3 allSendsSucceed 100 99 30
        (client_join_envelope "alice") aliceBobState).2.2 := by
  decide

/-- C2: the claim says a connection that stops acknowledging pings is evicted
within `PING_INTERVAL + PING_TIMEOUT` with **exactly one** `user_left`
presence broadcast, never two.  In the code, `remove_connection` (server.py
lines 98-101) broadcasts `user_left` unconditionally, even for a username
that is no longer registered, and the read-loop `finally` clause (line 226)
calls it again when the evicted transport of that peer later terminates.
Evaluating the embedding: `alice` (last acknowledgment at time 0) is evicted
by the monitor cycle checking at time 20, which delivers one `user_left` for
her to `bob`; the subsequent read-loop exit delivers a second one.  The
combined trace holds exactly two `user_left` deliveries for `alice`. -/
theorem C2_eviction_broadcasts_user_left_twice :
    (periodic_ping_cycle 3 allSendsSucceed false 20 "alice" aliceBobState).1 =
      PingCycleResult.exited
  ∧ memKey "alice"
      (periodic_ping_cycle 3 allSendsSucceed false 20 "alice"
        aliceBobState).2.1.users = false
  ∧ ((periodic_ping_cycle 3 allSendsSucceed false 20 "alice" aliceBobState).2.2 ++
      (websocket_endpoint_finally 3 allSendsSucceed 25 "alice"
        (periodic_ping_cycle 3 allSendsSucceed false 20 "alice"
          aliceBobState).2.1).2).countP
      (fun e => match e with
        | Event.delivered _ env =>
            env.type == "user_left" && env.username == some "alice"
        | _ => false) = 2 := by
  decide


/-- C3: the claim says the duplicate check and the registry insertion are
atomic with respect to concurrent registrations, so one of two simultaneous
joins with the same identity must be rejected.  In the code the check
(server.py lines 202-204) and the insert inside `manager.connect` (line 205
calling lines 42-51) are two separate `async with manager.lock:` regions, so
two handshake tasks can interleave check₁, check₂, insert₁, insert₂ (for
example when the registry lock is contended and its waiters alternate).
Running that schedule in the interleaving model: **both** joins are accepted
(neither task was rejected), while the registry holds the single overwritten
entry — the first transport of `Alice` has been silently replaced. -/
theorem C3_duplicate_check_and_insert_not_atomic :
    (runJoinSchedule [false, true, false, true] joinRaceStart).pc1 =
      JoinPc.done true
  ∧ (runJoinSchedule [false, true, false, true] joinRaceStart).pc2 =
      JoinPc.done true
  ∧ (runJoinSchedule [false, true, false, true] joinRaceStart).registry =
      ["Alice"] := by
  decide

/-- C4 counterexample: the claim says the server clears the typing flag of a
chat sender **before** broadcasting the chat message, so no recipient can
observe the chat while the sender is still in the typing set.  Line 214 of
server.py does the opposite: `await manager.broadcast(data, …)` runs first
and `await manager.update_typing_status(username, False)` second.  With
`alice` in the typing set sending `"hi"`, the event trace delivers the chat
envelope to `bob` at position 0 — while `alice` is still in the typing set —
and only afterwards (position 2) the `typing_status` broadcast showing she
stopped typing. -/
theorem C4_counterexample_chat_delivered_before_typing_clear :
    memKey "alice" aliceTypingState.typing_users = true
  ∧ (dispatch_message 3 allSendsSucceed 50 "alice" (client_chat_envelope "hi")
        FloweyResult.noModel aliceTypingState).2.1 =
      [Event.delivered "bob" (client_chat_envelope "hi"),
       Event.delivered "alice" (server_typing_status_envelope [] 50),
       Event.delivered "bob" (server_typing_status_envelope [] 50)] := by
  decide

/-- C4 amended: on a `chat` envelope from a typing sender the server first
broadcasts the chat verbatim to everyone but the sender, and only then
clears the typing flag and broadcasts the updated (sender-free) typing set;
after the handler the flag is cleared.  Recipients may therefore observe the
chat message while the sender is still in the typing set. -/
theorem C4_chat_clears_typing_after_broadcast (fuel now : Nat)
    (username : String) (msg : Envelope) (hty : msg.type = "chat")
    (r : FloweyResult) (st : ManagerState)
    (h : memKey username st.typing_users = true) :
    dispatch_message fuel (fun _ => false) now username msg r st =
      ({ st with typing_users := eraseKey username st.typing_users },
       (st.active_connections.filter (fun p => !(p.1 == username))).map
           (fun p => Event.delivered p.1 msg) ++
         st.active_connections.map (fun p => Event.delivered p.1
           (server_typing_status_envelope
             (typingKeys
               { st with typing_users := eraseKey username st.typing_users })
             now)),
       true)
  ∧ memKey username
      (dispatch_message fuel (fun _ => false) now username msg r
        st).1.typing_users = false := by
  have hmut : mutateTyping username false now st =
      ({ st with typing_users := eraseKey username st.typing_users }, true) := by
    simp [mutateTyping, h]
  have hd : dispatch_message fuel (fun _ => false) now username msg r st =
      ({ st with typing_users := eraseKey username st.typing_users },
       (st.active_connections.filter (fun p => !(p.1 == username))).map
           (fun p => Event.delivered p.1 msg) ++
         st.active_connections.map (fun p => Event.delivered p.1
           (server_typing_status_envelope
             (typingKeys
               { st with typing_users := eraseKey username st.typing_users })
             now)),
       true) := by
    unfold dispatch_message
    rw [if_pos hty]
    rw [broadcast_noFail]
    simp only [update_typing_status_noFail, hmut]
    simp [some_beq_some]
  refine ⟨hd, ?_⟩
  rw [hd]
  exact memKey_eraseKey_self username st.typing_users

/-- C4 amended witness: the amended theorem applied to the concrete
two-user state in which `alice` is typing and sends `"hi"`. -/
theorem C4_chat_clears_typing_after_broadcast_witness :
    dispatch_message 3 (fun _ => false) 50 "alice" (client_chat_envelope "hi")
        FloweyResult.noModel aliceTypingState =
      ({ aliceTypingState with
          typing_users := eraseKey "alice" aliceTypingState.typing_users },
       (aliceTypingState.active_connections.filter
           (fun p => !(p.1 == "alice"))).map
           (fun p => Event.delivered p.1 (client_chat_envelope "hi")) ++
         aliceTypingState.active_connections.map (fun p => Event.delivered p.1
           (server_typing_status_envelope
             (typingKeys
               { aliceTypingState with
                  typing_users := eraseKey "alice" aliceTypingState.typing_users })
             50)),
       true)
  ∧ memKey "alice"
      (dispatch_message 3 (fun _ => false) 50 "alice" (client_chat_envelope "hi")
        FloweyResult.noModel aliceTypingState).1.typing_users = false :=
  C4_chat_clears_typing_after_broadcast 3 50 "alice" (client_chat_envelope "hi")
    (by decide) FloweyResult.noModel aliceTypingState (by decide)

/-- C5: `update_typing_status` broadcasts a `typing_status` envelope exactly
when the typing set changed as a result of the call: setting the flag for an
already-typing identity only refreshes its timestamp and produces no
broadcast, clearing the flag of an absent identity produces no broadcast,
and in general the `changed` flag (which gates the broadcast at server.py
line 96) is true precisely when the key set of the typing dict differs from
before the mutation. -/
theorem C5_typing_broadcast_only_on_change (fuel : Nat)
    (fails : String → Bool) (now : Nat) (u : String) (b : Bool)
    (st : ManagerState) :
    ((update_typing_status fuel fails now u true st).2.1 =
        !memKey u st.typing_users)
  ∧ ((update_typing_status fuel fails now u false st).2.1 =
        memKey u st.typing_users)
  ∧ (memKey u st.typing_users = true →
      update_typing_status fuel fails now u true st =
        ({ st with typing_users := insertKey u now st.typing_users },
         false, []))
  ∧ (memKey u st.typing_users = false →
      update_typing_status fuel fails now u false st = (st, false, []))
  ∧ ((update_typing_status fuel fails now u b st).2.1 = true ↔
      typingKeys (mutateTyping u b now st).1 ≠ typingKeys st) := by
  refine ⟨?_, ?_, ?_, ?_, ?_⟩
  · by_cases hm : memKey u st.typing_users <;>
      simp [update_typing_status, mutateTyping, hm]
  · by_cases hm : memKey u st.typing_users <;>
      simp [update_typing_status, mutateTyping, hm]
  · intro hm
    simp [update_typing_status, mutateTyping, hm]
  · intro hm
    simp [update_typing_status, mutateTyping, hm]
  · cases b with
    | true =>
        by_cases hm : memKey u st.typing_users
        · have hmu : mutateTyping u true now st =
              ({ st with typing_users := insertKey u now st.typing_users },
               false) := by simp [mutateTyping, hm]
          have hkeys := keys_insertKey_of_memKey u now st.typing_users hm
          simp only [update_typing_status, hmu]
          simp [typingKeys, hkeys]
        · have hm2 : memKey u st.typing_users = false := by simpa using hm
          have hmu : mutateTyping u true now st =
              ({ st with typing_users := insertKey u now st.typing_users },
               true) := by simp [mutateTyping, hm2]
          have hkeys := keys_insertKey_of_not_memKey u now st.typing_users hm2
          simp only [update_typing_status, hmu]
          simp only [typingKeys, hkeys]
          constructor
          · intro _ hEq
            have := congrArg List.length hEq
            simp at this
          · intro _
            simp
    | false =>
        by_cases hm : memKey u st.typing_users
        · have hmu : mutateTyping u false now st =
              ({ st with typing_users := eraseKey u st.typing_users },
               true) := by simp [mutateTyping, hm]
          simp only [update_typing_status, hmu]
          simp only [typingKeys]
          constructor
          · intro _ hEq
            exact not_mem_keys_eraseKey u st.typing_users
              (hEq ▸ mem_keys_of_memKey hm)
          · intro _
            simp
        · have hm2 : memKey u st.typing_users = false := by simpa using hm
          have hmu : mutateTyping u false now st = (st, false) := by
            simp [mutateTyping, hm2]
          simp only [update_typing_status, hmu]
          simp [typingKeys]

/-- C5 witness: with `alice` already typing, repeating `typing=true` only
refreshes the timestamp and triggers no broadcast. -/
theorem C5_typing_broadcast_only_on_change_witness :
    update_typing_status 3 allSendsSucceed 7 "alice" true aliceTypingState =
      ({ aliceTypingState with
          typing_users := insertKey "alice" 7 aliceTypingState.typing_users },
       false, []) :=
  (C5_typing_broadcast_only_on_change 3 allSendsSucceed 7 "alice" true
    aliceTypingState).2.2.1 (by decide)

/-- C6: `broadcast(e, exclude=X)` successfully delivers `e` exactly to the
identities in the snapshot of the connection dict taken at broadcast time
that are distinct from `X` and whose transport does not fail; it never
delivers `e` to `X`; a recipient whose send fails does not prevent delivery
to the remaining recipients (any other non-failing snapshot member still
receives `e`); and a failing recipient is removed from the registry instead
(server.py lines 68-75). -/
theorem C6_broadcast_delivers_to_snapshot_except_excluded (fuel : Nat)
    (fails : String → Bool) (now : Nat) (env : Envelope) (x : String)
    (st : ManagerState) (hfuel : 1 ≤ fuel) :
    (broadcast fuel fails now env (some x) st).2.2 =
        (activeNames st).filter (fun u => !(u == x) && !fails u)
  ∧ x ∉ (broadcast fuel fails now env (some x) st).2.2
  ∧ (∀ u ∈ activeNames st, u ≠ x → fails u = false →
        u ∈ (broadcast fuel fails now env (some x) st).2.2)
  ∧ (∀ u ∈ activeNames st, u ≠ x → fails u = true →
        u ∉ activeNames (broadcast fuel fails now env (some x) st).1) := by
  have hdel : (broadcast fuel fails now env (some x) st).2.2 =
      (activeNames st).filter (fun u => !(u == x) && !fails u) := by
    unfold broadcast
    rw [sendLoop_delivered]
    simp [activeNames, some_beq_some]
  refine ⟨hdel, ?_, ?_, ?_⟩
  · rw [hdel]
    intro hx
    simp [List.mem_filter] at hx
  · intro u hu hne hf
    rw [hdel]
    simp only [List.mem_filter]
    exact ⟨hu, by simp [hne, hf]⟩
  · obtain ⟨n, rfl⟩ : ∃ n, fuel = n + 1 :=
      ⟨fuel - 1, (Nat.succ_pred_eq_of_pos hfuel).symm⟩
    intro u hu hne hf
    exact sendLoop_removes_failing fails now env (some x) n
      st.active_connections st u hu (by simpa using hne) hf

/-- C6 witness: the theorem applied to the two-user registry with the
oracle under which every send succeeds, excluding `alice`. -/
theorem C6_broadcast_delivers_to_snapshot_except_excluded_witness :
    (broadcast 1 allSendsSucceed 11 (client_chat_envelope "hi") (some "alice")
        aliceBobState).2.2 =
      (activeNames aliceBobState).filter
        (fun u => !(u == "alice") && !allSendsSucceed u)
  ∧ "alice" ∉ (broadcast 1 allSendsSucceed 11 (client_chat_envelope "hi")
      (some "alice") aliceBobState).2.2
  ∧ (∀ u ∈ activeNames aliceBobState, u ≠ "alice" → allSendsSucceed u = false →
      u ∈ (broadcast 1 allSendsSucceed 11 (client_chat_envelope "hi")
        (some "alice") aliceBobState).2.2)
  ∧ (∀ u ∈ activeNames aliceBobState, u ≠ "alice" → allSendsSucceed u = true →
      u ∉ activeNames (broadcast 1 allSendsSucceed 11
        (client_chat_envelope "hi") (some "alice") aliceBobState).1) :=
  C6_broadcast_delivers_to_snapshot_except_excluded 1 allSendsSucceed 11
    (client_chat_envelope "hi") "alice" aliceBobState (Nat.le_refl 1)


theorem dispatch_message_flowey (fuel : Nat) (fails : String → Bool)
    (now : Nat) (username q : String) (result : FloweyResult)
    (st : ManagerState) :
    dispatch_message fuel fails now username (client_flowey_envelope q)
        result st =
      ((update_typing_status fuel fails now username false
          (broadcast fuel fails now
            (server_flowey_chat_envelope (get_flowey_response result) now)
            none st).1).1,
       (broadcast fuel fails now
          (server_flowey_chat_envelope (get_flowey_response result) now)
          none st).2.1 ++
         (update_typing_status fuel fails now username false
            (broadcast fuel fails now
              (server_flowey_chat_envelope (get_flowey_response result) now)
              none st).1).2.2,
       true) := rfl

/-- C7: on a `flowey` query (the wire form of `ai_query`) from a registered
sender, every identity registered at broadcast time — the sender included —
receives exactly one `chat` envelope, that envelope carries the synthetic
username `Flowey`, and its message is non-empty even when the external
answer collaborator is unavailable (`flowey_model is None`) or raises: both
failure modes degrade to a non-empty in-character fallback string inside
`get_flowey_response` and never propagate (server.py lines 155-162 and
215-218). -/
theorem C7_flowey_query_broadcasts_one_chat_to_all (fuel now : Nat)
    (username q : String) (result : FloweyResult) (st : ManagerState)
    (hnd : (activeNames st).Nodup)
    (hok : ∀ t, result = FloweyResult.ok t → t ≠ "") :
    get_flowey_response result ≠ ""
  ∧ (server_flowey_chat_envelope (get_flowey_response result) now).username =
      some "Flowey"
  ∧ ∀ u ∈ activeNames st,
      (dispatch_message fuel (fun _ => false) now username
          (client_flowey_envelope q) result st).2.1.filter
        (isChatDeliveryTo u) =
      [Event.delivered u
        (server_flowey_chat_envelope (get_flowey_response result) now)] := by
  refine ⟨?_, rfl, ?_⟩
  · cases result with
    | noModel => decide
    | raised => decide
    | ok t => exact hok t rfl
  · intro u hu
    rw [dispatch_message_flowey, broadcast_noFail_none]
    simp only [update_typing_status_noFail]
    rw [List.filter_append]
    have henvty : ((server_flowey_chat_envelope (get_flowey_response result)
        now).type == "chat") = true := rfl
    have h1 : (st.active_connections.map (fun p => Event.delivered p.1
          (server_flowey_chat_envelope (get_flowey_response result)
            now))).filter (isChatDeliveryTo u) =
        [Event.delivered u
          (server_flowey_chat_envelope (get_flowey_response result) now)] := by
      have hmm : st.active_connections.map (fun p => Event.delivered p.1
            (server_flowey_chat_envelope (get_flowey_response result) now)) =
          (activeNames st).map (fun v => Event.delivered v
            (server_flowey_chat_envelope (get_flowey_response result) now)) := by
        simp [activeNames, List.map_map, Function.comp]
      rw [hmm, List.filter_map]
      have hpf : (isChatDeliveryTo u ∘ fun v => Event.delivered v
            (server_flowey_chat_envelope (get_flowey_response result) now)) =
          fun v => v == u := by
        funext v
        simp [isChatDeliveryTo, Function.comp, henvty]
      rw [hpf, List.filter_beq, List.count_eq_one_of_mem hnd hu]
      simp
    have h2 : (if (mutateTyping username false now st).2 then
          (mutateTyping username false now st).1.active_connections.map
            (fun p => Event.delivered p.1
              (server_typing_status_envelope
                (typingKeys (mutateTyping username false now st).1) now))
        else []).filter (isChatDeliveryTo u) = [] := by
      by_cases hc : (mutateTyping username false now st).2
      · rw [if_pos hc]
        rw [List.filter_eq_nil_iff]
        intro e he
        simp only [List.mem_map] at he
        obtain ⟨p, _, rfl⟩ := he
        simp [isChatDeliveryTo]
        intro _
        show ¬("typing_status" : String) = "chat"
        decide
      · rw [if_neg hc]
        rfl
    rw [h1, h2]
    simp

/-- C7 witness: `bob` asks Flowey a question while the collaborator raises;
both `alice` and `bob` receive exactly one non-empty Flowey chat envelope. -/
theorem C7_flowey_query_broadcasts_one_chat_to_all_witness :
    get_flowey_response FloweyResult.raised ≠ ""
  ∧ (server_flowey_chat_envelope (get_flowey_response FloweyResult.raised)
      33).username = some "Flowey"
  ∧ ∀ u ∈ activeNames aliceBobState,
      (dispatch_message 2 (fun _ => false) 33 "bob"
          (client_flowey_envelope "best NES game?") FloweyResult.raised
          aliceBobState).2.1.filter (isChatDeliveryTo u) =
      [Event.delivered u
        (server_flowey_chat_envelope (get_flowey_response FloweyResult.raised)
          33)] :=
  C7_flowey_query_broadcasts_one_chat_to_all 2 33 "bob" "best NES game?"
    FloweyResult.raised aliceBobState (by decide) (fun t h => nomatch h)

/-- C8: `submit_coroutine` on the bridge fails fast when no chat session is
active — it returns the not-connected status without queuing anything on the
worker scheduler (the bridge state is unchanged) — and when a session is
active it appends the operation to the worker scheduler and returns a future
the caller may wait on (online_manager.py lines 109-115). -/
theorem C8_submit_fails_fast_when_not_connected (coro : Nat)
    (st : BridgeState) :
    (sessionActive st = false →
        submit_coroutine coro st = (SubmitResult.notConnected, st))
  ∧ (sessionActive st = true →
        submit_coroutine coro st =
          (SubmitResult.submitted coro,
           { st with scheduled := st.scheduled ++ [coro] })) := by
  constructor
  · intro h
    simp [submit_coroutine, h]
  · intro h
    simp [submit_coroutine, h]



/-- C8 witness: with no loop and no client nothing is queued and the
not-connected status is returned; with a connected client the operation is
scheduled and a future is returned. -/
theorem C8_submit_fails_fast_when_not_connected_witness :
    submit_coroutine 5 idleBridgeState =
      (SubmitResult.notConnected, idleBridgeState)
  ∧ submit_coroutine 5 connectedBridgeState =
      (SubmitResult.submitted 5,
       { connectedBridgeState with scheduled :=
          connectedBridgeState.scheduled ++ [5] }) :=
  ⟨(C8_submit_fails_fast_when_not_connected 5 idleBridgeState).1 (by decide),
   (C8_submit_fails_fast_when_not_connected 5 connectedBridgeState).2
     (by decide)⟩

/-- C9 counterexample: the claim says every `chat` or `ai_query` envelope —
whether produced by the server or by the client — carries a UTC timestamp.
The client literal at online_chat.py line 77 is
`{"type": "chat", "message": message}` and the one at line 81 is
`{"type": "flowey", "message": message}`: both are of the claimed kinds and
carry no timestamp field at all (and the server relays the chat one
verbatim, server.py line 214). -/
theorem C9_counterexample_client_chat_has_no_timestamp :
    (client_chat_envelope "hi").type = "chat"
  ∧ (client_chat_envelope "hi").timestamp = none
  ∧ (client_flowey_envelope "best NES game?").type = "flowey"
  ∧ (client_flowey_envelope "best NES game?").timestamp = none := by
  decide

/-- C9 amended: every envelope the system produces carries a `type`
discriminator; the server-built `chat` (welcome and Flowey), presence,
`typing_status` and `ping`-era envelopes carry timestamps where the source
adds them — `typing_status` always, server `chat` always, presence events
always, but the `ping` probe never — while the client-built `chat` and
`flowey` (`ai_query`) envelopes carry no timestamp. -/
theorem C9_every_envelope_carries_type_server_side_timestamps
    (username m resp e : String) (now : Nat) (users typing : List String) :
    (client_join_envelope username).type = "join"
  ∧ (client_chat_envelope m).type = "chat"
  ∧ (client_flowey_envelope m).type = "flowey"
  ∧ client_pong_envelope.type = "pong"
  ∧ client_leave_envelope.type = "leave"
  ∧ server_ping_envelope.type = "ping"
  ∧ (server_error_envelope e).type = "error"
  ∧ (server_welcome_envelope username now).type = "chat"
  ∧ (server_user_list_envelope users).type = "user_list"
  ∧ (server_user_event_envelope "user_left" username now users).type =
      "user_left"
  ∧ (server_typing_status_envelope typing now).type = "typing_status"
  ∧ (server_flowey_chat_envelope resp now).type = "chat"
  ∧ (server_welcome_envelope username now).timestamp = some now
  ∧ (server_flowey_chat_envelope resp now).timestamp = some now
  ∧ (server_typing_status_envelope typing now).timestamp = some now
  ∧ (server_user_event_envelope "user_left" username now users).timestamp =
      some now
  ∧ (client_chat_envelope m).timestamp = none
  ∧ (client_flowey_envelope m).timestamp = none
  ∧ server_ping_envelope.timestamp = none :=
  ⟨rfl, rfl, rfl, rfl, rfl, rfl, rfl, rfl, rfl, rfl, rfl, rfl, rfl, rfl,
   rfl, rfl, rfl, rfl, rfl⟩


/-- C10 counterexample: the claim says a `join` without a `username` field is
never rejected — the server always registers it under the generated name
`User_<k+1>`.  But the generated name goes through the same duplicate check
as any other (server.py lines 201-204): if an existing user is already named
`User_2`, an anonymous join with one registered user is rejected as a
duplicate (and, per the C1 bug, the existing `User_2` is even evicted by the
`finally` clause). -/
theorem C10_counterexample_generated_name_can_collide :
    ({ type := "join" } : Envelope).username = none
  ∧ (websocket_endpoint_handshake 3 allSendsSucceed 100 99 30
        { type := "join" } userTwoState).1 =
      HandshakeOutcome.rejectedDuplicate "User_2" := by
  decide

/-- C10 amended: a `join` whose first envelope carries no `username` field is
registered under the generated identity `User_<k+1>` (where `k` is the
number of registered users at that moment) **provided** that generated name
is not itself already registered; otherwise it is rejected as a duplicate
identity.  The amended theorem proves the provided case: the handshake
accepts and the generated name is registered afterwards. -/
theorem C10_join_without_username_gets_generated_identity (fuel now ws taskId : Nat)
    (st : ManagerState)
    (h : memKey ("User_" ++ toString (st.users.length + 1))
      st.active_connections = false) :
    (websocket_endpoint_handshake fuel (fun _ => false) now ws taskId
        { type := "join" } st).1 =
      HandshakeOutcome.accepted ("User_" ++ toString (st.users.length + 1))
  ∧ memKey ("User_" ++ toString (st.users.length + 1))
      (websocket_endpoint_handshake fuel (fun _ => false) now ws taskId
        { type := "join" } st).2.1.active_connections = true := by
  have hfalse : ¬ memKey ("User_" ++ toString (st.users.length + 1))
      st.active_connections = true := by simp [h]
  constructor
  · simp only [websocket_endpoint_handshake, Option.getD_none]
    rw [if_pos trivial, if_neg hfalse]
  · simp only [websocket_endpoint_handshake, Option.getD_none]
    rw [if_pos trivial, if_neg hfalse]
    simp only [connect, broadcast_user_event, broadcast_noFail_none]
    exact memKey_insertKey_self _ ws _

/-- C10 amended witness: an anonymous join into the two-user registry is
accepted as `User_3` and registered. -/
theorem C10_join_without_username_gets_generated_identity_witness :
    (websocket_endpoint_handshake 2 (fun _ => false) 40 7 8
        { type := "join" } aliceBobState).1 =
      HandshakeOutcome.accepted
        ("User_" ++ toString (aliceBobState.users.length + 1))
  ∧ memKey ("User_" ++ toString (aliceBobState.users.length + 1))
      (websocket_endpoint_handshake 2 (fun _ => false) 40 7 8
        { type := "join" } aliceBobState).2.1.active_connections = true :=
  C10_join_without_username_gets_generated_identity 2 40 7 8 aliceBobState
    (by decide)

end Chat
